import Mathlib

/-
Verification of the LIMIT demo backend (financial discipline evaluator and
simulated proof emitter), shallowly embedded from the Python source files
backend/app/mock_data.py, backend/app/logic.py, backend/app/proof.py and
backend/app/main.py.
-/

namespace Limit

/-- A transaction record, as in mock_data.py: an amount, a category string
and a date string. Amounts are modelled as integers (the mock data uses
integer amounts). -/
structure Transaction where
  amount : Int
  category : String
  date : String
deriving Repr, DecidableEq

/-- USER_BUDGET from mock_data.py. -/
def USER_BUDGET : Int := 20000

/-- SAVINGS_TARGET from mock_data.py. -/
def SAVINGS_TARGET : Int := 5000

/-- PREVIOUS_MONTH_IMPULSE_SPEND from mock_data.py. -/
def PREVIOUS_MONTH_IMPULSE_SPEND : Int := 4000

/-- IMPULSE_CATEGORIES from mock_data.py, a set of category strings
modelled as a list. -/
def IMPULSE_CATEGORIES : List String := ["food", "shopping", "travel"]

/-- The hardcoded transaction list from mock_data.py. -/
def transactions : List Transaction :=
  [ { amount := 3000, category := "food", date := "2026-01-05" },
    { amount := 1500, category := "shopping", date := "2026-01-07" },
    { amount := 2000, category := "travel", date := "2026-01-10" },
    { amount := 5000, category := "savings", date := "2026-01-12" },
    { amount := 1200, category := "food", date := "2026-01-15" } ]

/-- The debug sub-record of the discipline result returned by
evaluate_discipline in logic.py. -/
structure DebugInfo where
  total_spend : Int
  impulse_spend : Int
  total_savings : Int
deriving Repr, DecidableEq

/-- The discipline result dictionary returned by evaluate_discipline in
logic.py. -/
structure DisciplineResult where
  budget_ok : Bool
  impulse_ok : Bool
  savings_ok : Bool
  discipline_passed : Bool
  debug : DebugInfo
deriving Repr, DecidableEq

/-- One iteration of the loop body of evaluate_discipline in logic.py:
the accumulator is (total_spend, impulse_spend, total_savings). The first
branch splits the amount into savings or spend; the second, independent
branch adds the amount to impulse_spend when the category is an impulse
category. -/
def evalStep (acc : Int × Int × Int) (tx : Transaction) : Int × Int × Int :=
  let split :=
    if tx.category = "savings" then
      (acc.1, acc.2.1, acc.2.2 + tx.amount)
    else
      (acc.1 + tx.amount, acc.2.1, acc.2.2)
  if tx.category ∈ IMPULSE_CATEGORIES then
    (split.1, split.2.1 + tx.amount, split.2.2)
  else
    split

/-- evaluate_discipline from logic.py: a single left fold over the
transaction list starting from zero sums, followed by the three boolean
checks and their conjunction. -/
def evaluate_discipline (txs : List Transaction) : DisciplineResult :=
  let sums := txs.foldl evalStep (0, 0, 0)
  let total_spend := sums.1
  let impulse_spend := sums.2.1
  let total_savings := sums.2.2
  let budget_ok := decide (total_spend ≤ USER_BUDGET)
  let impulse_ok := decide (impulse_spend < PREVIOUS_MONTH_IMPULSE_SPEND)
  let savings_ok := decide (total_savings ≥ SAVINGS_TARGET)
  let discipline_passed := budget_ok && impulse_ok && savings_ok
  { budget_ok := budget_ok,
    impulse_ok := impulse_ok,
    savings_ok := savings_ok,
    discipline_passed := discipline_passed,
    debug := { total_spend := total_spend,
               impulse_spend := impulse_spend,
               total_savings := total_savings } }

/-- The proof record emitted by generate_proof in proof.py. -/
structure ProofRecord where
  proof_id : String
  discipline_valid : Bool
  timestamp : String
deriving Repr, DecidableEq

/-- The 32-character lowercase hexadecimal rendering of a 128-bit UUID
value, as produced by uuid.uuid4().hex in Python: big-endian digits with
leading zeros. The random value itself is passed in explicitly. -/
def uuid_hex (u : Nat) : List Char :=
  (List.range 32).map (fun i => Nat.digitChar (u / 16 ^ (31 - i) % 16))

/-- generate_proof from proof.py. The random 128-bit value behind
uuid.uuid4() and the wall-clock ISO timestamp are passed in explicitly:
the function builds the proof id from the first 8 hex digits of the uuid
uppercased, copies discipline_passed into discipline_valid, and stamps the
clock reading. -/
def generate_proof (rnd : Nat) (clock : String) (discipline_result : DisciplineResult) :
    ProofRecord :=
  { proof_id := "0x" ++ String.mk (((uuid_hex rnd).take 8).map Char.toUpper),
    discipline_valid := discipline_result.discipline_passed,
    timestamp := clock }

/-- The POST /generate-proof handler from main.py: it re-runs
evaluate_discipline on the static transaction data and feeds the fresh
result to generate_proof. -/
def generate (rnd : Nat) (clock : String) : ProofRecord :=
  generate_proof rnd clock (evaluate_discipline transactions)

/-- Sum of the amounts of the transactions whose category is not the
literal "savings". -/
def spendSum (txs : List Transaction) : Int :=
  ((txs.filter (fun tx => !(tx.category = "savings" : Bool))).map Transaction.amount).sum

/-- Sum of the amounts of the transactions whose category is a member of
the impulse category set. -/
def impulseSum (txs : List Transaction) : Int :=
  ((txs.filter (fun tx => decide (tx.category ∈ IMPULSE_CATEGORIES))).map Transaction.amount).sum

/-- Sum of the amounts of the transactions whose category equals the
literal "savings". -/
def savingsSum (txs : List Transaction) : Int :=
  ((txs.filter (fun tx => (tx.category = "savings" : Bool))).map Transaction.amount).sum

/-- Characterisation of the fold in evaluate_discipline: starting from an
arbitrary accumulator, the fold adds the non-savings sum to the first
component, the impulse sum to the second and the savings sum to the
third. -/
theorem foldl_evalStep_eq (txs : List Transaction) :
    ∀ a b c : Int,
      txs.foldl evalStep (a, b, c) =
        (a + spendSum txs, b + impulseSum txs, c + savingsSum txs) := by
  induction txs with
  | nil =>
    intro a b c
    simp [spendSum, impulseSum, savingsSum]
  | cons tx rest ih =>
    intro a b c
    have hsav : ¬ (("savings" : String) ∈ IMPULSE_CATEGORIES) := by decide
    by_cases hs : tx.category = "savings" <;>
      by_cases hi : tx.category ∈ IMPULSE_CATEGORIES <;>
        simp [List.foldl_cons, evalStep, hs, hi, hsav, ih, spendSum, impulseSum, savingsSum,
          List.filter_cons] <;>
        omega

/-- An uppercase hexadecimal digit character. -/
def isUpperHexDigit (c : Char) : Bool :=
  ("0123456789ABCDEF".toList).contains c

/-- Digits below 16 render, after uppercasing, as uppercase hexadecimal
characters. -/
theorem upperHex_of_lt_16 :
    ∀ d : Nat, d < 16 → isUpperHexDigit (Nat.digitChar d).toUpper = true := by
  decide

/-- The non-savings and savings sums split the total of all amounts. -/
theorem spendSum_add_savingsSum (txs : List Transaction) :
    spendSum txs + savingsSum txs = (txs.map Transaction.amount).sum := by
  induction txs with
  | nil => simp [spendSum, savingsSum]
  | cons tx rest ih =>
    by_cases hs : tx.category = "savings" <;>
      simp [spendSum, savingsSum, List.filter_cons, hs] at ih ⊢ <;>
      omega

/-- With non-negative amounts, the impulse sum is bounded by the
non-savings sum, because no impulse category equals "savings". -/
theorem impulseSum_le_spendSum (txs : List Transaction)
    (h : ∀ tx ∈ txs, 0 ≤ tx.amount) : impulseSum txs ≤ spendSum txs := by
  induction txs with
  | nil => simp [impulseSum, spendSum]
  | cons tx rest ih =>
    have hrest : ∀ t ∈ rest, 0 ≤ t.amount := fun t ht => h t (List.mem_cons_of_mem _ ht)
    have htx : 0 ≤ tx.amount := h tx (List.mem_cons_self _ _)
    have hih := ih hrest
    have hsav : ¬ (("savings" : String) ∈ IMPULSE_CATEGORIES) := by decide
    by_cases hs : tx.category = "savings"
    · have hi : ¬ tx.category ∈ IMPULSE_CATEGORIES := by rw [hs]; exact hsav
      simp [impulseSum, spendSum, List.filter_cons, hs, hi, hsav] at hih ⊢
      omega
    · by_cases hi : tx.category ∈ IMPULSE_CATEGORIES <;>
        simp [impulseSum, spendSum, List.filter_cons, hs, hi] at hih ⊢ <;>
        omega

/-- Claim C1: evaluate_discipline computes, in its single pass, the sum of
amounts of the "savings" transactions as total_savings, the sum of amounts
of the non-"savings" transactions as total_spend, and the sum of amounts
of the impulse-category transactions as impulse_spend, with impulse
membership evaluated independently of the savings/spend split. -/
theorem evaluate_discipline_sums_spec (txs : List Transaction) :
    (evaluate_discipline txs).debug.total_savings = savingsSum txs ∧
    (evaluate_discipline txs).debug.total_spend = spendSum txs ∧
    (evaluate_discipline txs).debug.impulse_spend = impulseSum txs := by
  have h0 := foldl_evalStep_eq txs 0 0 0
  simp at h0
  simp [evaluate_discipline, h0]

/-- Claim C2: the three booleans of evaluate_discipline are exactly
budget_ok = (total_spend ≤ budget ceiling), inclusive; impulse_ok =
(impulse_spend < prior impulse spend), strict; savings_ok =
(total_savings ≥ savings target), inclusive. -/
theorem evaluate_discipline_flags_spec (txs : List Transaction) :
    ((evaluate_discipline txs).budget_ok = true ↔
        (evaluate_discipline txs).debug.total_spend ≤ USER_BUDGET) ∧
    ((evaluate_discipline txs).impulse_ok = true ↔
        (evaluate_discipline txs).debug.impulse_spend < PREVIOUS_MONTH_IMPULSE_SPEND) ∧
    ((evaluate_discipline txs).savings_ok = true ↔
        (evaluate_discipline txs).debug.total_savings ≥ SAVINGS_TARGET) := by
  refine ⟨?_, ?_, ?_⟩ <;> simp [evaluate_discipline]

/-- Claim C3: discipline_passed is always the conjunction of the three
sub-checks of the same evaluation. -/
theorem discipline_passed_is_conjunction (txs : List Transaction) :
    (evaluate_discipline txs).discipline_passed =
      ((evaluate_discipline txs).budget_ok && (evaluate_discipline txs).impulse_ok &&
        (evaluate_discipline txs).savings_ok) := rfl

/-- Claim C4: on the reference fixture, evaluate_discipline returns
total_spend = 7700, impulse_spend = 7700, total_savings = 5000,
budget_ok = true, impulse_ok = false, savings_ok = true and
discipline_passed = false. -/
theorem reference_fixture_eval :
    (evaluate_discipline transactions).debug.total_spend = 7700 ∧
    (evaluate_discipline transactions).debug.impulse_spend = 7700 ∧
    (evaluate_discipline transactions).debug.total_savings = 5000 ∧
    (evaluate_discipline transactions).budget_ok = true ∧
    (evaluate_discipline transactions).impulse_ok = false ∧
    (evaluate_discipline transactions).savings_ok = true ∧
    (evaluate_discipline transactions).discipline_passed = false := by
  decide

/-- Claim C5: total_spend plus total_savings equals the sum of all
transaction amounts: the savings/spend split partitions the sequence. -/
theorem spend_savings_partition (txs : List Transaction) :
    (evaluate_discipline txs).debug.total_spend +
        (evaluate_discipline txs).debug.total_savings =
      (txs.map Transaction.amount).sum := by
  have h := spendSum_add_savingsSum txs
  have h0 := foldl_evalStep_eq txs 0 0 0
  simp at h0
  simp [evaluate_discipline, h0]
  omega

/-- Claim C6: generate_proof copies discipline_passed verbatim into
discipline_valid, and the proof-generation endpoint obtains its input by
re-running evaluate_discipline on the static transactions, so the emitted
discipline_valid equals discipline_passed of a fresh evaluation. -/
theorem generate_proof_copies_flag :
    (∀ (rnd : Nat) (clock : String) (dr : DisciplineResult),
        (generate_proof rnd clock dr).discipline_valid = dr.discipline_passed) ∧
    (∀ (rnd : Nat) (clock : String),
        generate rnd clock = generate_proof rnd clock (evaluate_discipline transactions) ∧
        (generate rnd clock).discipline_valid =
          (evaluate_discipline transactions).discipline_passed) :=
  ⟨fun _ _ _ => rfl, fun _ _ => ⟨rfl, rfl⟩⟩

/-- Claim C7: for every input and every value of the random source, the
proof_id is the prefix "0x" followed by exactly 8 uppercase hexadecimal
characters. -/
theorem proof_id_format (rnd : Nat) (clock : String) (dr : DisciplineResult) :
    ∃ s : List Char,
      (generate_proof rnd clock dr).proof_id = "0x" ++ String.mk s ∧
      s.length = 8 ∧ s.all isUpperHexDigit = true := by
  refine ⟨((uuid_hex rnd).take 8).map Char.toUpper, rfl, ?_, ?_⟩
  · simp [uuid_hex]
  · rw [List.all_eq_true]
    intro x hx
    simp only [List.mem_map] at hx
    obtain ⟨y, hy, hxy⟩ := hx
    have hy2 := List.mem_of_mem_take hy
    simp only [uuid_hex, List.mem_map, List.mem_range] at hy2
    obtain ⟨i, _, hyi⟩ := hy2
    subst hxy
    subst hyi
    exact upperHex_of_lt_16 _ (Nat.mod_lt _ (by norm_num))

/-- Claim C8: on the empty transaction collection, all three sums are
zero; with the positive hardcoded savings target this makes savings_ok
false and discipline_passed false, while budget_ok and impulse_ok hold. -/
theorem empty_transactions_eval :
    (evaluate_discipline ([] : List Transaction)).debug.total_spend = 0 ∧
    (evaluate_discipline ([] : List Transaction)).debug.impulse_spend = 0 ∧
    (evaluate_discipline ([] : List Transaction)).debug.total_savings = 0 ∧
    (0 : Int) < SAVINGS_TARGET ∧
    (evaluate_discipline ([] : List Transaction)).savings_ok = false ∧
    (evaluate_discipline ([] : List Transaction)).discipline_passed = false ∧
    (evaluate_discipline ([] : List Transaction)).budget_ok = true ∧
    (evaluate_discipline ([] : List Transaction)).impulse_ok = true := by
  decide

/-- Claim C9: for transaction lists with non-negative amounts, the
reported impulse_spend is at most the reported total_spend, since the
impulse category set does not contain "savings". -/
theorem impulse_le_total_spend (txs : List Transaction)
    (h : ∀ tx ∈ txs, 0 ≤ tx.amount) :
    (evaluate_discipline txs).debug.impulse_spend ≤
      (evaluate_discipline txs).debug.total_spend := by
  have hle := impulseSum_le_spendSum txs h
  have h0 := foldl_evalStep_eq txs 0 0 0
  simp at h0
  simp [evaluate_discipline, h0]
  omega

/-- Witness for claim C9 at the reference fixture, whose amounts are all
non-negative. -/
theorem impulse_le_total_spend_witness :
    (∀ tx ∈ transactions, 0 ≤ tx.amount) ∧
    (evaluate_discipline transactions).debug.impulse_spend ≤
      (evaluate_discipline transactions).debug.total_spend :=
  ⟨by decide, impulse_le_total_spend transactions (by decide)⟩

/-- Claim C10: generate_proof reads only discipline_passed from its input:
two inputs agreeing on that flag yield identical proof records for the
same random value and clock reading. -/
theorem generate_proof_flag_noninterference (rnd : Nat) (clock : String)
    (dr1 dr2 : DisciplineResult)
    (h : dr1.discipline_passed = dr2.discipline_passed) :
    generate_proof rnd clock dr1 = generate_proof rnd clock dr2 := by
  simp [generate_proof, h]

/-- A discipline result fixture differing from drB in every field except
discipline_passed. -/
def drA : DisciplineResult :=
  { budget_ok := true, impulse_ok := true, savings_ok := true,
    discipline_passed := false,
    debug := { total_spend := 1, impulse_spend := 2, total_savings := 3 } }

/-- A discipline result fixture differing from drA in every field except
discipline_passed. -/
def drB : DisciplineResult :=
  { budget_ok := false, impulse_ok := false, savings_ok := false,
    discipline_passed := false,
    debug := { total_spend := 0, impulse_spend := 0, total_savings := 0 } }

/-- Witness for claim C10 on two results that agree only on
discipline_passed. -/
theorem generate_proof_flag_noninterference_witness :
    drA.discipline_passed = drB.discipline_passed ∧
    generate_proof 7 "2026-01-31T00:00:00" drA =
      generate_proof 7 "2026-01-31T00:00:00" drB :=
  ⟨rfl, generate_proof_flag_noninterference 7 "2026-01-31T00:00:00" drA drB rfl⟩

end Limit
